import Mathlib

/-!
Shallow embedding of the remote media import pipeline of the gifselector
repository (backend route POST /api/import in backend/src/auth.js,
lines 459-765), together with the constants it uses (lines 151-164).

External effects (child processes, network fetches, the filesystem, the
database) are modelled by an explicit environment per URL (UrlEnv, FileEnv,
ConvEnv) that fixes the outcome of every external call, and by an event
trace (Ev) recording which effects the pipeline performs and in which
order.  The pipeline logic itself - control flow, error messages, the
conversion strategy chain, size checks, cleanup - is translated directly
from the JavaScript source.
-/

namespace GifSelector

/-! ### String helpers modelling the JavaScript / Node primitives used

All of them recurse structurally over character lists so that every
definition evaluates inside the kernel on concrete inputs.  The paths,
hostnames and extensions handled by the pipeline are ASCII, so the
character-level model matches the JavaScript string semantics. -/

/-- Split a character list at every occurrence of a separator. -/
def splitOnChar (c : Char) : List Char → List (List Char)
  | [] => [[]]
  | x :: rest =>
      let r := splitOnChar c rest
      if x = c then [] :: r
      else
        match r with
        | [] => [[x]]
        | h :: t => (x :: h) :: t

/-- Index of the last occurrence of a character in a list, if any. -/
def lastIdxOf (c : Char) (cs : List Char) : Option Nat :=
  (List.range cs.length).foldl
    (fun acc i => if cs.getD i ' ' = c then some i else acc) none

/-- The final path component, as used by Node path.basename for the
slash-separated paths occurring here. -/
def basename (p : String) : String :=
  String.mk ((splitOnChar '/' p.toList).getLastD [])

/-- Node path.extname: the substring of the basename starting at its last
dot; empty when the basename has no dot, starts with its only dot, or
is the special name dot-dot. -/
def extname (p : String) : String :=
  let base := (splitOnChar '/' p.toList).getLastD []
  if base = ['.', '.'] then ""
  else
    match lastIdxOf '.' base with
    | none => ""
    | some 0 => ""
    | some i => String.mk (base.drop i)

/-- ASCII lower-casing of one character, as String.prototype.toLowerCase
acts on the ASCII extension strings handled here. -/
def charLower (c : Char) : Char :=
  if 65 ≤ c.toNat ∧ c.toNat ≤ 90 then Char.ofNat (c.toNat + 32) else c

/-- ASCII lower-casing of a string. -/
def strLower (s : String) : String :=
  String.mk (s.toList.map charLower)

/-- JavaScript String.prototype.endsWith. -/
def strEndsWith (s suff : String) : Bool :=
  suff.toList.isSuffixOf s.toList

/-- Whether a list occurs contiguously inside another. -/
def listIsInfixOf (pat : List Char) : List Char → Bool
  | [] => pat.isPrefixOf []
  | c :: rest => pat.isPrefixOf (c :: rest) || listIsInfixOf pat rest

/-- JavaScript String.prototype.includes (substring containment). -/
def strIncludes (s sub : String) : Bool :=
  listIsInfixOf sub.toList s.toList

/-- Model of filePath.replace(new RegExp(ext dollar-anchored, "i"), repl)
where the path is known to end in a case variant of ext (ext is the
lower-cased extname of the path): the regexes built here (".gif" and
".mp4" dollar-anchored) match exactly the last ext.length characters,
so the replacement drops them and appends repl. -/
def replaceSuffix (p ext repl : String) : String :=
  String.mk (p.toList.take (p.toList.length - ext.toList.length)) ++ repl

/-- The global replacement of the five-character entity amp-escape by an
ampersand (line 536, mediaUrl.replace of the amp entity): left-to-right,
non-overlapping, exactly as the global regex replace. -/
def unescapeAmp : List Char → List Char
  | '&' :: 'a' :: 'm' :: 'p' :: ';' :: rest => '&' :: unescapeAmp rest
  | c :: rest => c :: unescapeAmp rest
  | [] => []

/-! ### Constants from backend/src/auth.js -/

/-- ALLOWED_EXTENSIONS (line 156). -/
def ALLOWED_EXTENSIONS : List String := [".gif", ".webp"]

/-- EXTENSION_MIME_MAP (lines 161-164); the empty string stands for the
JavaScript undefined of a missing key (never reached on the import path,
where only ".gif" and ".webp" are looked up). -/
def EXTENSION_MIME_MAP (ext : String) : String :=
  if ext = ".gif" then "image/gif"
  else if ext = ".webp" then "image/webp"
  else ""

/-- MAX_DOWNLOAD_SIZE = 15 * 1024 * 1024 bytes (line 466). -/
def MAX_DOWNLOAD_SIZE : Nat := 15 * 1024 * 1024

/-! ### JSON-ish values for elements of the request body urls field -/

/-- The JSON values that can appear in the request body. -/
inductive JVal where
  | jstr (s : String)
  | jnum (n : Int)
  | jbool (b : Bool)
  | jnull
  | jarr (xs : List JVal)

mutual

/-- JavaScript String() coercion for the modelled values, used when a
non-string element reaches a string context (the URL constructor,
child-process arguments, fetch). Nested nulls inside an array join are
approximated by the word null rather than the empty string; no claim
depends on that corner. -/
def JVal.toJsString : JVal → String
  | .jstr s => s
  | .jnum n => toString n
  | .jbool b => cond b "true" "false"
  | .jnull => "null"
  | .jarr xs => jvalJoin xs

/-- Comma join of array elements, as JavaScript Array.prototype.toString. -/
def jvalJoin : List JVal → String
  | [] => ""
  | [x] => x.toJsString
  | x :: y :: rest => x.toJsString ++ "," ++ jvalJoin (y :: rest)

end

/-! ### Environments fixing the outcomes of external effects -/

/-- Outcomes of the external conversion tools and of the persist step for
one candidate file: whether each strategy of the chain succeeds (the
subprocess exits zero and the output file exists afterwards), the stat
sizes of the converted outputs, the random names drawn for the persist
step, and whether the database insert throws. -/
structure ConvEnv where
  ffmpegWebpOk : Bool
  magickOk : Bool
  convertOk : Bool
  ffmpegGifOk : Bool
  webpSize : Nat
  gifSize : Nat
  uniqueSuffix : String
  slug : String
  addGifErr : Option String

/-- One file found in the workspace: its path, its stat size, and the
conversion-world outcomes for it. -/
structure FileEnv where
  path : String
  size : Nat
  conv : ConvEnv

/-- The external world for one URL of the batch: the result of URL
parsing, the workspace name drawn, the outcome of the gallery-dl run,
the files it leaves behind, the fallback page and media fetches, and
whether the final cleanup rm throws. -/
structure UrlEnv where
  parsed : Option String
  tempDirName : String
  rmFails : Bool
  galleryOk : Bool
  galleryFiles : List FileEnv
  galleryPartialFiles : List FileEnv
  pageOk : Bool
  pageStatus : Nat
  pageStatusText : String
  meta : String → Option String
  mediaOk : Bool
  mediaStatus : Nat
  contentLength : Option Nat
  bodyLen : Nat
  contentType : String
  mediaPathname : Option String
  fallbackConv : ConvEnv

/-! ### Event traces -/

/-- Externally visible effects performed by the pipeline. -/
inductive Ev where
  | mkdirTemp (dir : String)
  | execGalleryDl (url : String)
  | fetchPage (url : String)
  | fetchMedia (url : String)
  | writeWorkspaceFile (path : String)
  | execFfmpegWebp (input : String)
  | execMagick (input : String)
  | execConvert (input : String)
  | execFfmpegGif (input : String)
  | copyToUploads (src : String) (uniqueName : String)
  | addGif (slug : String) (filename : String) (mimeType : String) (sizeBytes : Nat)
  | rmTemp (dir : String) (failed : Bool)
  deriving DecidableEq

/-! ### Results -/

/-- The per-URL record pushed into the results array (line 469 and
lines 742-743, 759): url, success, and the optional slug and error
fields. -/
structure ImportResult where
  url : JVal
  success : Bool
  slug : Option String
  error : Option String

/-- The metadata record handed to addGif (lines 734-740). -/
structure Persisted where
  slug : String
  filename : String
  originalName : String
  mimeType : String
  sizeBytes : Nat
  deriving DecidableEq

/-- The final artifact chosen for one candidate file after the conversion
chain: path, extension, mime type and stat size. -/
structure FinalArtifact where
  path : String
  ext : String
  mime : String
  size : Nat
  deriving DecidableEq

/-- Outcome of the loop body for one candidate file: skipped (continue),
stored (asset persisted, foundValid set), or an exception. -/
inductive FileOut where
  | skipped
  | stored (p : Persisted)
  | threw (msg : String)
  deriving DecidableEq

/-- Outcome of the whole for-loop over downloaded files. -/
inductive LoopRes where
  | ok (found : Option Persisted)
  | err (msg : String)
  deriving DecidableEq

/-- HTTP response of the import route: the 400 error for a non-array
body, or the 200 results payload. -/
inductive Response where
  | badRequest (error : String)
  | okJson (results : List ImportResult)

/-! ### The conversion strategy chain (lines 600-712) -/

/-- The conversion stage for one candidate file.  For a .gif or .mp4
input the strategy chain is attempted in source order - for .mp4:
ffmpeg to webp, then magick, then convert, then ffmpeg to gif; for
.gif: magick, then convert - each attempt logged, stopping at the
first success; on total failure the original file stays the final
artifact (still carrying its .mp4 extension in the mp4 case).  A .webp
input passes through untouched. -/
def resolveConversion (f : FileEnv) : List Ev × FinalArtifact :=
  let ext := strLower (extname f.path)
  let isMp4 := ext == ".mp4"
  let orig : FinalArtifact :=
    ⟨f.path, ext, if isMp4 then "video/mp4" else EXTENSION_MIME_MAP ext, f.size⟩
  if ext == ".gif" || isMp4 then
    let webpPath := replaceSuffix f.path ext ".webp"
    let webpArt : FinalArtifact := ⟨webpPath, ".webp", "image/webp", f.conv.webpSize⟩
    if isMp4 && f.conv.ffmpegWebpOk then
      ([Ev.execFfmpegWebp f.path], webpArt)
    else
      let e0 := if isMp4 then [Ev.execFfmpegWebp f.path] else []
      if f.conv.magickOk then
        (e0 ++ [Ev.execMagick f.path], webpArt)
      else if f.conv.convertOk then
        (e0 ++ [Ev.execMagick f.path, Ev.execConvert f.path], webpArt)
      else if isMp4 then
        let gifPath := replaceSuffix f.path ext ".gif"
        let evs := e0 ++ [Ev.execMagick f.path, Ev.execConvert f.path, Ev.execFfmpegGif f.path]
        if f.conv.ffmpegGifOk then
          (evs, ⟨gifPath, ".gif", "image/gif", f.conv.gifSize⟩)
        else (evs, orig)
      else
        (e0 ++ [Ev.execMagick f.path, Ev.execConvert f.path], orig)
  else ([], orig)

/-- The loop body for one downloaded file (lines 597-745): skip files
without a .gif, .webp or .mp4 extension; run the conversion chain;
drop a final artifact still carrying .mp4; skip artifacts strictly over
the size cap; otherwise copy into permanent storage and record the
asset (the database insert may throw, which escapes the loop). -/
def processFile (f : FileEnv) : List Ev × FileOut :=
  let ext := strLower (extname f.path)
  let isMp4 := ext == ".mp4"
  if !(ALLOWED_EXTENSIONS.contains ext) && !isMp4 then ([], FileOut.skipped)
  else
    let r := resolveConversion f
    let evs := r.fst
    let art := r.snd
    if art.ext == ".mp4" then (evs, FileOut.skipped)
    else if art.size > MAX_DOWNLOAD_SIZE then (evs, FileOut.skipped)
    else
      let uniqueName := f.conv.uniqueSuffix ++ art.ext
      let evs2 := evs ++ [Ev.copyToUploads art.path uniqueName]
      match f.conv.addGifErr with
      | some m => (evs2, FileOut.threw m)
      | none =>
          (evs2 ++ [Ev.addGif f.conv.slug uniqueName art.mime art.size],
           FileOut.stored ⟨f.conv.slug, uniqueName, basename f.path, art.mime, art.size⟩)

/-- The for-loop over downloaded files: files are attempted in order;
a stored asset sets foundValid, so the next iteration breaks and later
files are untouched; a skip continues with the next file; a thrown
error escapes the loop. -/
def runFiles : List FileEnv → List Ev × LoopRes
  | [] => ([], LoopRes.ok none)
  | f :: rest =>
      match processFile f with
      | (evs, FileOut.stored p) => (evs, LoopRes.ok (some p))
      | (evs, FileOut.threw m) => (evs, LoopRes.err m)
      | (evs, FileOut.skipped) =>
          let r := runFiles rest
          (evs ++ r.fst, r.snd)

/-! ### Acquisition (lines 492-593) -/

/-- Extension inference for the fallback download (lines 556-566): take
the extname of the media URL path; if empty or longer than five
characters, sniff the content type; if still empty, default to .gif. -/
def inferExt (pathExt : String) (cType : String) : String :=
  let e :=
    if pathExt == "" || pathExt.length > 5 then
      if strIncludes cType "video/mp4" then ".mp4"
      else if strIncludes cType "image/gif" then ".gif"
      else if strIncludes cType "image/webp" then ".webp"
      else pathExt
    else pathExt
  if e == "" then ".gif" else e

/-- Acquisition: run gallery-dl; only when that invocation throws, fall
back to scraping the page for og/twitter media metadata, fetching the
media URL, enforcing the size cap via the content-length header and
again on the downloaded body, and writing the bytes into the workspace
under a fixed fallback name.  Returns the files present in the
workspace afterwards, or the error that aborted the URL. -/
def acquire (urlStr tempDir : String) (env : UrlEnv) : List Ev × Except String (List FileEnv) :=
  if env.galleryOk then
    ([Ev.execGalleryDl urlStr], Except.ok env.galleryFiles)
  else
    let evs0 := [Ev.execGalleryDl urlStr, Ev.fetchPage urlStr]
    if !env.pageOk then
      (evs0, Except.error
        ("Fallback fetch failed: " ++ toString env.pageStatus ++ " " ++ env.pageStatusText))
    else
      match env.meta "og:video" <|> env.meta "og:video:url" <|>
            env.meta "og:image" <|> env.meta "twitter:image" with
      | none => (evs0, Except.error "No media found via metadata fallback")
      | some m0 =>
          let mediaUrl := String.mk (unescapeAmp m0.toList)
          let evs1 := evs0 ++ [Ev.fetchMedia mediaUrl]
          if !env.mediaOk then
            (evs1, Except.error ("Fallback download failed: " ++ toString env.mediaStatus))
          else
            let hdrTooLarge :=
              match env.contentLength with
              | some n => decide (n > MAX_DOWNLOAD_SIZE)
              | none => false
            if hdrTooLarge then
              (evs1, Except.error "Fallback media file too large")
            else if env.bodyLen > MAX_DOWNLOAD_SIZE then
              (evs1, Except.error "Fallback media file too large")
            else
              match env.mediaPathname with
              | none => (evs1, Except.error "Invalid URL")
              | some pn =>
                  let ext := inferExt (extname pn) env.contentType
                  let savePath := tempDir ++ "/fallback-download" ++ ext
                  (evs1 ++ [Ev.writeWorkspaceFile savePath],
                   Except.ok (env.galleryPartialFiles ++ [⟨savePath, env.bodyLen, env.fallbackConv⟩]))

/-! ### The per-URL pipeline (lines 468-762) -/

/-- The inner try block guarded by the cleanup finally: acquisition, the
empty-workspace check, the loop over files, and the trailing
no-valid-file check. -/
def innerPipeline (urlStr tempDir : String) (env : UrlEnv) : List Ev × Except String Persisted :=
  match acquire urlStr tempDir env with
  | (evs, Except.error m) => (evs, Except.error m)
  | (evs, Except.ok files) =>
      if files.isEmpty then (evs, Except.error "No files downloaded by gallery-dl")
      else
        let r := runFiles files
        match r.snd with
        | LoopRes.err m => (evs ++ r.fst, Except.error m)
        | LoopRes.ok (some p) => (evs ++ r.fst, Except.ok p)
        | LoopRes.ok none =>
            (evs ++ r.fst,
             Except.error "Downloaded files were not valid GIFs/WebPs or were too large.")

/-- Whether the hostname equals an allow-list entry or is a subdomain of
one (lines 478-481). -/
def hostAllowed (validDomains : List String) (host : String) : Bool :=
  validDomains.any (fun d => host == d || strEndsWith host ("." ++ d))

/-- One iteration of the for-loop over urls: parse the URL (recorded as
Invalid URL on failure), check the domain allow-list, create the
workspace, run the inner pipeline, and always remove the workspace
afterwards (a removal failure is swallowed and affects nothing but the
trace); any error is recorded in the error field of the result. -/
def processUrl (validDomains : List String) (urlv : JVal) (env : UrlEnv) : ImportResult × List Ev :=
  let urlStr := urlv.toJsString
  match env.parsed with
  | none => (⟨urlv, false, none, some "Invalid URL"⟩, [])
  | some host =>
      if !(hostAllowed validDomains host) then
        (⟨urlv, false, none, some "Domain not whitelisted"⟩, [])
      else
        let tempDir := "/tmp/gifselector-import-" ++ env.tempDirName
        let r := innerPipeline urlStr tempDir env
        let trace := Ev.mkdirTemp tempDir :: r.fst ++ [Ev.rmTemp tempDir env.rmFails]
        match r.snd with
        | Except.ok p => (⟨urlv, true, some p.slug, none⟩, trace)
        | Except.error m => (⟨urlv, false, none, some m⟩, trace)

/-- The sequential for-loop over the urls array; element i runs against
environment envs i. -/
def runUrls (validDomains : List String) (envs : Nat → UrlEnv) :
    Nat → List JVal → List ImportResult × List Ev
  | _, [] => ([], [])
  | i, v :: rest =>
      let r := processUrl validDomains v (envs i)
      let rs := runUrls validDomains envs (i + 1) rest
      (r.fst :: rs.fst, r.snd ++ rs.snd)

/-- The whole route handler body (lines 459-765): reject a non-array
urls field with the 400 error, otherwise process every element in
order and answer 200 with the collected results. -/
def importHandler (validDomains : List String) (urls : JVal) (envs : Nat → UrlEnv) :
    Response × List Ev :=
  match urls with
  | JVal.jarr xs =>
      let r := runUrls validDomains envs 0 xs
      (Response.okJson r.fst, r.snd)
  | _ => (Response.badRequest "urls must be an array", [])

/-! ### Shared environments for concrete witnesses -/

/-- A conversion environment in which every strategy fails. -/
def convAllFail : ConvEnv :=
  ⟨false, false, false, false, 0, 0, "171-aaaaaa", "slugaaaaa1", none⟩

/-- A baseline world: the URL parses to a hostname on the allow-list used
by the witnesses, gallery-dl succeeds with an empty workspace, and the
fallback world is benign. -/
def baseEnv : UrlEnv :=
  { parsed := some "i.imgur.com", tempDirName := "t1", rmFails := false,
    galleryOk := true, galleryFiles := [], galleryPartialFiles := [],
    pageOk := true, pageStatus := 200, pageStatusText := "OK",
    meta := fun _ => none, mediaOk := true, mediaStatus := 200,
    contentLength := none, bodyLen := 0, contentType := "",
    mediaPathname := some "/x.gif", fallbackConv := convAllFail }

/-! ### Helper lemmas -/

/-- Events that the per-file loop body can emit: conversion subprocess
runs, the copy into permanent storage, and the database insert. -/
def Ev.fromFileStage : Ev → Bool
  | .execFfmpegWebp _ => true
  | .execMagick _ => true
  | .execConvert _ => true
  | .execFfmpegGif _ => true
  | .copyToUploads _ _ => true
  | .addGif _ _ _ _ => true
  | _ => false

theorem resolveConversion_events (f : FileEnv) :
    ((resolveConversion f).fst).all Ev.fromFileStage = true := by
  simp only [resolveConversion]
  repeat' split
  all_goals rfl

theorem processFile_events (f : FileEnv) :
    ((processFile f).fst).all Ev.fromFileStage = true := by
  simp only [processFile]
  repeat' split
  all_goals
    simp [List.all_append, resolveConversion_events f, Ev.fromFileStage]

theorem runFiles_events (fs : List FileEnv) :
    ((runFiles fs).fst).all Ev.fromFileStage = true := by
  induction fs with
  | nil => rfl
  | cons f rest ih =>
      simp only [runFiles]
      rcases hpf : processFile f with ⟨evs, out⟩
      have hall : evs.all Ev.fromFileStage = true := by
        have := processFile_events f
        rw [hpf] at this
        exact this
      cases out <;> simp_all [List.all_append]

theorem processUrl_url (vd : List String) (v : JVal) (env : UrlEnv) :
    ((processUrl vd v env).fst).url = v := by
  unfold processUrl
  cases env.parsed with
  | none => rfl
  | some host =>
      dsimp only
      split
      · rfl
      · split <;> rfl

theorem runUrls_map_url (vd : List String) (envs : Nat → UrlEnv) (xs : List JVal) :
    ∀ i, ((runUrls vd envs i xs).fst).map ImportResult.url = xs := by
  induction xs with
  | nil => intro i; rfl
  | cons v rest ih =>
      intro i
      simp only [runUrls, List.map_cons]
      rw [processUrl_url, ih]

/-! ### Claim theorems -/

/-- Claim C1: for every request body whose urls field is an array,
the handler answers with a 200 results array holding exactly one
entry per input element, in the same order, each entry carrying that
element in its url field; per-element failures are recorded in the
entry and never abort the remaining elements or the combined
response. -/
theorem c1_results_match_urls (vd : List String) (envs : Nat → UrlEnv) (xs : List JVal) :
    ∃ rs, (importHandler vd (JVal.jarr xs) envs).fst = Response.okJson rs ∧
      rs.map ImportResult.url = xs := by
  exact ⟨(runUrls vd envs 0 xs).fst, rfl, runUrls_map_url vd envs xs 0⟩

/-- Claim C2: an unparseable URL yields success false with the invalid
URL error, and a URL whose hostname neither equals nor is a subdomain
of an allow-list entry yields success false with the domain error; in
both cases the event trace is empty, so no workspace directory is
created, the external downloader is not invoked and no network fetch
is performed. -/
theorem c2_validation_rejects (vd : List String) (v : JVal) (env : UrlEnv) :
    (env.parsed = none →
        processUrl vd v env = (⟨v, false, none, some "Invalid URL"⟩, [])) ∧
    (∀ host, env.parsed = some host → hostAllowed vd host = false →
        processUrl vd v env = (⟨v, false, none, some "Domain not whitelisted"⟩, [])) := by
  constructor
  · intro h
    unfold processUrl
    rw [h]
  · intro host h hna
    unfold processUrl
    rw [h]
    dsimp only
    rw [hna]
    rfl

/-- Witness for C2 at a concrete hostname off the allow-list. -/
theorem c2_validation_rejects_witness :
    processUrl ["imgur.com"] (JVal.jstr "https://evil.example/x")
        { baseEnv with parsed := some "evil.example" } =
      (⟨JVal.jstr "https://evil.example/x", false, none, some "Domain not whitelisted"⟩, []) :=
  (c2_validation_rejects ["imgur.com"] (JVal.jstr "https://evil.example/x")
      { baseEnv with parsed := some "evil.example" }).2 "evil.example" rfl (by decide)

theorem innerPipeline_rmFails (u t : String) (env : UrlEnv) (b : Bool) :
    innerPipeline u t { env with rmFails := b } = innerPipeline u t env := rfl

theorem processUrl_fst_rmFails (vd : List String) (v : JVal) (env : UrlEnv) (b : Bool) :
    (processUrl vd v { env with rmFails := b }).fst = (processUrl vd v env).fst := by
  obtain ⟨pa, td, rm, go, gf, gp, po, ps, pt, me, mo, ms, cl, bl, ct, mp, fc⟩ := env
  cases pa with
  | none => rfl
  | some host =>
      simp only [processUrl]
      cases hal : hostAllowed vd host
      · rfl
      · simp only [Bool.not_true, Bool.false_eq_true, if_false]
        rcases hR : innerPipeline (JVal.toJsString v) ("/tmp/gifselector-import-" ++ td)
            ⟨some host, td, rm, go, gf, gp, po, ps, pt, me, mo, ms, cl, bl, ct, mp, fc⟩
          with ⟨evs, r⟩
        have hR2 : innerPipeline (JVal.toJsString v) ("/tmp/gifselector-import-" ++ td)
            ⟨some host, td, b, go, gf, gp, po, ps, pt, me, mo, ms, cl, bl, ct, mp, fc⟩ =
            (evs, r) := hR
        rw [hR2]
        cases r <;> rfl

/-- Claim C3: whenever the workspace is created, the trace ends with its
recursive removal - on the success path, on every thrown error and on
the skip paths alike - and a failure of the removal itself changes
nothing about the result of the URL. -/
theorem c3_workspace_cleanup (vd : List String) (v : JVal) (env : UrlEnv)
    (h : ∃ d, Ev.mkdirTemp d ∈ (processUrl vd v env).snd) :
    (∃ d, Ev.mkdirTemp d ∈ (processUrl vd v env).snd ∧
        ((processUrl vd v env).snd).getLast? = some (Ev.rmTemp d env.rmFails)) ∧
    ∀ b, (processUrl vd v { env with rmFails := b }).fst = (processUrl vd v env).fst := by
  refine ⟨?_, fun b => processUrl_fst_rmFails vd v env b⟩
  obtain ⟨d, hd⟩ := h
  obtain ⟨pa, td, rm, go, gf, gp, po, ps, pt, me, mo, ms, cl, bl, ct, mp, fc⟩ := env
  cases pa with
  | none => simp [processUrl] at hd
  | some host =>
      cases hal : hostAllowed vd host
      · simp [processUrl, hal] at hd
      · refine ⟨"/tmp/gifselector-import-" ++ td, ?_, ?_⟩
        · simp only [processUrl, hal, Bool.not_true, Bool.false_eq_true, if_false]
          split <;> simp
        · simp only [processUrl, hal, Bool.not_true, Bool.false_eq_true, if_false]
          split <;> (dsimp only; rw [List.getLast?_append_cons]; rfl)

/-- Witness for C3: a run that creates a workspace. -/
theorem c3_workspace_cleanup_witness :
    ∃ d, Ev.mkdirTemp d ∈
        (processUrl ["imgur.com"] (JVal.jstr "https://i.imgur.com/a") baseEnv).snd ∧
      ((processUrl ["imgur.com"] (JVal.jstr "https://i.imgur.com/a") baseEnv).snd).getLast? =
        some (Ev.rmTemp d baseEnv.rmFails) :=
  (c3_workspace_cleanup ["imgur.com"] (JVal.jstr "https://i.imgur.com/a") baseEnv
      ⟨"/tmp/gifselector-import-t1", by decide⟩).1

/-- Claim C9 counterexample: an array containing a non-string element is
not rejected at request level - the handler answers 200 and processes
the element per-item - refuting the claim that every body whose urls
field is not a semantic array of strings fails with a 400. -/
theorem c9_counterexample :
    (importHandler ["imgur.com"] (JVal.jarr [JVal.jnum 42])
        (fun _ => { baseEnv with parsed := none })).fst =
      Response.okJson [⟨JVal.jnum 42, false, none, some "Invalid URL"⟩] := by rfl

/-- Claim C9 amended: the request-level 400 check tests only whether the
urls field is an array; a non-array body fails the whole request with
the 400 error and an empty trace (zero assets), while any array - even
one containing non-string elements - is processed per-item into a 200
results array aligned with the input. -/
theorem c9_array_check_only (vd : List String) (envs : Nat → UrlEnv) (urls : JVal) :
    ((∀ xs, urls ≠ JVal.jarr xs) →
        importHandler vd urls envs = (Response.badRequest "urls must be an array", [])) ∧
    (∀ xs, urls = JVal.jarr xs →
        ∃ rs, (importHandler vd urls envs).fst = Response.okJson rs ∧
          rs.map ImportResult.url = xs) := by
  constructor
  · intro h
    cases urls with
    | jstr s => rfl
    | jnum n => rfl
    | jbool b => rfl
    | jnull => rfl
    | jarr xs => exact absurd rfl (h xs)
  · rintro xs rfl
    exact ⟨_, rfl, runUrls_map_url vd envs xs 0⟩

theorem processFile_stored (f : FileEnv) (p : Persisted) :
    (processFile f).snd = FileOut.stored p →
      p.slug = f.conv.slug ∧
      Ev.addGif p.slug p.filename p.mimeType p.sizeBytes ∈ (processFile f).fst := by
  simp only [processFile]
  repeat' split
  all_goals intro h
  all_goals dsimp only at h
  all_goals
    first
      | exact FileOut.noConfusion h
      | (injection h with h2; subst h2; exact ⟨rfl, by simp⟩)

theorem runFiles_found (fs : List FileEnv) (p : Persisted) :
    (runFiles fs).snd = LoopRes.ok (some p) →
      ∃ f ∈ fs, (processFile f).snd = FileOut.stored p ∧
        ∀ e ∈ (processFile f).fst, e ∈ (runFiles fs).fst := by
  induction fs with
  | nil =>
      intro h
      exact absurd h (by simp [runFiles])
  | cons f rest ih =>
      intro h
      rcases hpf : processFile f with ⟨evs, out⟩
      cases out with
      | stored q =>
          simp only [runFiles, hpf, LoopRes.ok.injEq, Option.some.injEq] at h ⊢
          subst h
          exact ⟨f, by simp, by rw [hpf], fun e he => by rw [hpf] at he; exact he⟩
      | threw m =>
          simp [runFiles, hpf] at h
      | skipped =>
          simp only [runFiles, hpf] at h ⊢
          obtain ⟨g, hg, hst, hev⟩ := ih h
          exact ⟨g, List.mem_cons_of_mem f hg, hst,
            fun e he => List.mem_append_right _ (hev e he)⟩

theorem acquire_ok (u t : String) (env : UrlEnv) (fs : List FileEnv) :
    (acquire u t env).snd = Except.ok fs →
      (env.galleryOk = true ∧ fs = env.galleryFiles) ∨
      (env.galleryOk = false ∧
        ∃ sp, fs = env.galleryPartialFiles ++ [⟨sp, env.bodyLen, env.fallbackConv⟩]) := by
  simp only [acquire]
  repeat' split
  all_goals intro h
  all_goals dsimp only at h
  all_goals
    first
      | exact Except.noConfusion h
      | (injection h with h2;
         exact Or.inl ⟨by assumption, h2.symm⟩)
      | (injection h with h2;
         exact Or.inr ⟨by simp_all, _, h2.symm⟩)

theorem innerPipeline_ok (u t : String) (env : UrlEnv) (p : Persisted) :
    (innerPipeline u t env).snd = Except.ok p →
      ∃ fs, (acquire u t env).snd = Except.ok fs ∧
        ∃ f ∈ fs, (processFile f).snd = FileOut.stored p ∧
          ∀ e ∈ (processFile f).fst, e ∈ (innerPipeline u t env).fst := by
  intro h
  rcases ha : acquire u t env with ⟨aevs, ar⟩
  cases ar with
  | error m =>
      rw [innerPipeline, ha] at h
      exact absurd h (by simp)
  | ok files =>
      rw [innerPipeline, ha] at h
      dsimp only at h
      split at h
      · exact absurd h (by simp)
      · rename_i hne
        rcases hr : runFiles files with ⟨revs, rr⟩
        rw [hr] at h
        cases rr with
        | err m => exact absurd h (by simp)
        | ok o =>
            cases o with
            | none => exact absurd h (by simp)
            | some q =>
                dsimp only at h
                injection h with h2
                subst h2
                have hip : innerPipeline u t env = (aevs ++ revs, Except.ok q) := by
                  rw [innerPipeline, ha]
                  dsimp only
                  rw [if_neg hne, hr]
                obtain ⟨f, hf, hst, hev⟩ := runFiles_found files q (by rw [hr])
                refine ⟨files, rfl, f, hf, hst, fun e he => ?_⟩
                rw [hip]
                have := hev e he
                rw [hr] at this
                exact List.mem_append_right _ this

/-- Events of the conversion strategy chain proper: only subprocess
invocations of the converters. -/
def Ev.isConvExec : Ev → Bool
  | .execFfmpegWebp _ => true
  | .execMagick _ => true
  | .execConvert _ => true
  | .execFfmpegGif _ => true
  | _ => false

theorem resolveConversion_events_exec (f : FileEnv) :
    ((resolveConversion f).fst).all Ev.isConvExec = true := by
  simp only [resolveConversion]
  repeat' split
  all_goals rfl

theorem not_mem_of_all_exec (e : Ev) (l : List Ev)
    (hl : l.all Ev.isConvExec = true) (he : e.isConvExec = false) : e ∉ l := by
  intro hm
  have := List.all_eq_true.mp hl e hm
  rw [he] at this
  exact Bool.noConfusion this

theorem not_mem_of_all_fromFileStage (e : Ev) (l : List Ev)
    (hl : l.all Ev.fromFileStage = true) (he : e.fromFileStage = false) : e ∉ l := by
  intro hm
  have := List.all_eq_true.mp hl e hm
  rw [he] at this
  exact Bool.noConfusion this

theorem resolveConversion_mp4_allfail (f : FileEnv)
    (hx : strLower (extname f.path) = ".mp4")
    (h1 : f.conv.ffmpegWebpOk = false) (h2 : f.conv.magickOk = false)
    (h3 : f.conv.convertOk = false) (h4 : f.conv.ffmpegGifOk = false) :
    resolveConversion f =
      ([Ev.execFfmpegWebp f.path, Ev.execMagick f.path, Ev.execConvert f.path,
        Ev.execFfmpegGif f.path],
       ⟨f.path, ".mp4", "video/mp4", f.size⟩) := by
  simp only [resolveConversion, hx, h1, h2, h3, h4]
  rfl

theorem processFile_mp4_allfail (f : FileEnv)
    (hx : strLower (extname f.path) = ".mp4")
    (h1 : f.conv.ffmpegWebpOk = false) (h2 : f.conv.magickOk = false)
    (h3 : f.conv.convertOk = false) (h4 : f.conv.ffmpegGifOk = false) :
    processFile f =
      ([Ev.execFfmpegWebp f.path, Ev.execMagick f.path, Ev.execConvert f.path,
        Ev.execFfmpegGif f.path],
       FileOut.skipped) := by
  simp only [processFile, hx, resolveConversion_mp4_allfail f hx h1 h2 h3 h4]
  rfl

theorem resolveConversion_gif_allfail (f : FileEnv)
    (hx : strLower (extname f.path) = ".gif")
    (h2 : f.conv.magickOk = false) (h3 : f.conv.convertOk = false) :
    resolveConversion f =
      ([Ev.execMagick f.path, Ev.execConvert f.path],
       ⟨f.path, ".gif", "image/gif", f.size⟩) := by
  simp only [resolveConversion, hx, h2, h3]
  rfl

theorem processFile_gif_allfail (f : FileEnv)
    (hx : strLower (extname f.path) = ".gif")
    (h2 : f.conv.magickOk = false) (h3 : f.conv.convertOk = false)
    (hsize : f.size ≤ MAX_DOWNLOAD_SIZE) (hdb : f.conv.addGifErr = none) :
    processFile f =
      ([Ev.execMagick f.path, Ev.execConvert f.path,
        Ev.copyToUploads f.path (f.conv.uniqueSuffix ++ ".gif"),
        Ev.addGif f.conv.slug (f.conv.uniqueSuffix ++ ".gif") "image/gif" f.size],
       FileOut.stored ⟨f.conv.slug, f.conv.uniqueSuffix ++ ".gif",
         basename f.path, "image/gif", f.size⟩) := by
  have hns : ¬ f.size > MAX_DOWNLOAD_SIZE := not_lt.mpr hsize
  simp only [processFile, hx, resolveConversion_gif_allfail f hx h2 h3, hdb]
  rw [if_neg hns]
  rfl

/-- Witness for the amended C9 at a concrete non-array body. -/
theorem c9_array_check_only_witness :
    importHandler ["imgur.com"] JVal.jnull (fun _ => baseEnv) =
      (Response.badRequest "urls must be an array", []) :=
  (c9_array_check_only ["imgur.com"] (fun _ => baseEnv) JVal.jnull).1
    (fun _ h => JVal.noConfusion h)

/-- An mp4 workspace file for which every conversion strategy fails. -/
def mp4FailFile : FileEnv := ⟨"/tmp/t/a.mp4", 100, convAllFail⟩

/-- A gif workspace file whose conversions fail but which persists
as-is. -/
def gifKeepFile : FileEnv :=
  ⟨"/tmp/t/b.gif", 200, ⟨false, false, false, false, 0, 0, "171-bbbbbb", "slugbbbbb2", none⟩⟩

/-- A webp workspace file whose size is exactly the 15 MiB cap. -/
def webpCapFile : FileEnv :=
  ⟨"/tmp/t/c.webp", 15728640, ⟨false, false, false, false, 0, 0, "171-cccccc", "slugccccc3", none⟩⟩

/-- A webp workspace file one byte over the 15 MiB cap. -/
def webpBigFile : FileEnv :=
  ⟨"/tmp/t/d.webp", 15728641, ⟨false, false, false, false, 0, 0, "171-dddddd", "slugddddd4", none⟩⟩

/-- Claim C4 counterexample: a workspace holding two files with valid
extensions - first an mp4 whose whole conversion chain fails, then a
gif - ends with the gif being converted (the tools run on it) and
persisted, so a file after the first valid one is processed,
contradicting the claim. -/
theorem c4_counterexample :
    (processUrl ["imgur.com"] (JVal.jstr "https://i.imgur.com/a")
        { baseEnv with galleryFiles := [mp4FailFile, gifKeepFile] }).fst.success = true ∧
    (processUrl ["imgur.com"] (JVal.jstr "https://i.imgur.com/a")
        { baseEnv with galleryFiles := [mp4FailFile, gifKeepFile] }).fst.slug =
      some "slugbbbbb2" ∧
    Ev.execMagick "/tmp/t/b.gif" ∈
      (processUrl ["imgur.com"] (JVal.jstr "https://i.imgur.com/a")
        { baseEnv with galleryFiles := [mp4FailFile, gifKeepFile] }).snd ∧
    Ev.addGif "slugbbbbb2" "171-bbbbbb.gif" "image/gif" 200 ∈
      (processUrl ["imgur.com"] (JVal.jstr "https://i.imgur.com/a")
        { baseEnv with galleryFiles := [mp4FailFile, gifKeepFile] }).snd := by
  refine ⟨rfl, rfl, ?_, ?_⟩ <;> decide

/-- Claim C4 amended: the early exit of the per-file loop fires only on
a successful persist: once a file is stored, the loop breaks and the
remaining files contribute nothing; a valid file that is skipped
(mp4 whose conversions fail, or an over-cap artifact) merely continues
the loop, so files after it are still attempted. -/
theorem c4_stop_only_after_store (f : FileEnv) (rest : List FileEnv) (p : Persisted) :
    ((processFile f).snd = FileOut.stored p →
        runFiles (f :: rest) = ((processFile f).fst, LoopRes.ok (some p))) ∧
    ((processFile f).snd = FileOut.skipped →
        runFiles (f :: rest) =
          ((processFile f).fst ++ (runFiles rest).fst, (runFiles rest).snd)) := by
  constructor
  · intro h
    rcases hpf : processFile f with ⟨evs, out⟩
    rw [hpf] at h
    dsimp only at h
    subst h
    simp [runFiles, hpf]
  · intro h
    rcases hpf : processFile f with ⟨evs, out⟩
    rw [hpf] at h
    dsimp only at h
    subst h
    simp [runFiles, hpf]

/-- Witness for the amended C4: a stored first file ends the loop. -/
theorem c4_stop_only_after_store_witness :
    runFiles [gifKeepFile, mp4FailFile] =
      ((processFile gifKeepFile).fst,
       LoopRes.ok (some ⟨"slugbbbbb2", "171-bbbbbb.gif", "b.gif", "image/gif", 200⟩)) :=
  (c4_stop_only_after_store gifKeepFile [mp4FailFile]
      ⟨"slugbbbbb2", "171-bbbbbb.gif", "b.gif", "image/gif", 200⟩).1 (by decide)

/-- Claim C5: when every conversion strategy fails - (a) an mp4 file is
skipped by the loop body and no database insert is emitted for it;
(b) if that mp4 was the only workspace file, the result of the URL is
success false with the no-valid-files error; (c) a gif file is kept:
the original path is copied unchanged and recorded with the gif
extension and image gif mime type at its original size, subject only
to the size check. -/
theorem c5_total_conversion_failure :
    (∀ f : FileEnv, strLower (extname f.path) = ".mp4" →
        f.conv.ffmpegWebpOk = false → f.conv.magickOk = false →
        f.conv.convertOk = false → f.conv.ffmpegGifOk = false →
        (processFile f).snd = FileOut.skipped ∧
        ∀ s fn mt sz, Ev.addGif s fn mt sz ∉ (processFile f).fst) ∧
    (∀ (vd : List String) (v : JVal) (env : UrlEnv) (host : String) (f : FileEnv),
        env.parsed = some host → hostAllowed vd host = true →
        env.galleryOk = true → env.galleryFiles = [f] →
        strLower (extname f.path) = ".mp4" →
        f.conv.ffmpegWebpOk = false → f.conv.magickOk = false →
        f.conv.convertOk = false → f.conv.ffmpegGifOk = false →
        (processUrl vd v env).fst.success = false ∧
        (processUrl vd v env).fst.error =
          some "Downloaded files were not valid GIFs/WebPs or were too large.") ∧
    (∀ f : FileEnv, strLower (extname f.path) = ".gif" →
        f.conv.magickOk = false → f.conv.convertOk = false →
        f.size ≤ MAX_DOWNLOAD_SIZE → f.conv.addGifErr = none →
        (processFile f).snd =
          FileOut.stored ⟨f.conv.slug, f.conv.uniqueSuffix ++ ".gif",
            basename f.path, "image/gif", f.size⟩ ∧
        Ev.copyToUploads f.path (f.conv.uniqueSuffix ++ ".gif") ∈ (processFile f).fst) := by
  refine ⟨?_, ?_, ?_⟩
  · intro f hx h1 h2 h3 h4
    rw [processFile_mp4_allfail f hx h1 h2 h3 h4]
    exact ⟨rfl, by intro s fn mt sz; simp⟩
  · intro vd v env host f hp hal hgo hgf hx h1 h2 h3 h4
    have hpf := processFile_mp4_allfail f hx h1 h2 h3 h4
    have hrf : runFiles [f] = ((processFile f).fst, LoopRes.ok none) := by
      simp [runFiles, hpf]
    have hacq : acquire (JVal.toJsString v)
        ("/tmp/gifselector-import-" ++ env.tempDirName) env =
        ([Ev.execGalleryDl (JVal.toJsString v)], Except.ok [f]) := by
      simp only [acquire, hgo, if_true, hgf]
    have hip : innerPipeline (JVal.toJsString v)
        ("/tmp/gifselector-import-" ++ env.tempDirName) env =
        ([Ev.execGalleryDl (JVal.toJsString v)] ++ (runFiles [f]).fst,
         Except.error "Downloaded files were not valid GIFs/WebPs or were too large.") := by
      rw [innerPipeline, hacq]
      dsimp only
      rw [hrf]
      rfl
    have hres : (processUrl vd v env).fst =
        ⟨v, false, none,
         some "Downloaded files were not valid GIFs/WebPs or were too large."⟩ := by
      simp only [processUrl, hp, hal, Bool.not_true, Bool.false_eq_true, if_false, hip]
    rw [hres]
    exact ⟨rfl, rfl⟩
  · intro f hx h2 h3 hsize hdb
    rw [processFile_gif_allfail f hx h2 h3 hsize hdb]
    exact ⟨rfl, by simp⟩

/-- Witness for C5: the concrete gif file whose conversions fail is
stored as-is, and the concrete lone mp4 file fails its URL. -/
theorem c5_total_conversion_failure_witness :
    ((processFile gifKeepFile).snd =
        FileOut.stored ⟨"slugbbbbb2", "171-bbbbbb.gif", "b.gif", "image/gif", 200⟩ ∧
      Ev.copyToUploads "/tmp/t/b.gif" "171-bbbbbb.gif" ∈ (processFile gifKeepFile).fst) ∧
    ((processUrl ["imgur.com"] (JVal.jstr "https://i.imgur.com/a")
        { baseEnv with galleryFiles := [mp4FailFile] }).fst.success = false ∧
      (processUrl ["imgur.com"] (JVal.jstr "https://i.imgur.com/a")
        { baseEnv with galleryFiles := [mp4FailFile] }).fst.error =
        some "Downloaded files were not valid GIFs/WebPs or were too large.") :=
  ⟨c5_total_conversion_failure.2.2 gifKeepFile (by decide) rfl rfl (by decide) rfl,
   c5_total_conversion_failure.2.1 ["imgur.com"] (JVal.jstr "https://i.imgur.com/a")
     { baseEnv with galleryFiles := [mp4FailFile] } "i.imgur.com" mp4FailFile
     rfl (by decide) rfl rfl (by decide) rfl rfl rfl rfl⟩

theorem processUrl_trace (vd : List String) (v : JVal) (env : UrlEnv) (host : String)
    (hp : env.parsed = some host) (hal : hostAllowed vd host = true) :
    (processUrl vd v env).snd =
      (Ev.mkdirTemp ("/tmp/gifselector-import-" ++ env.tempDirName) ::
        (innerPipeline (JVal.toJsString v)
          ("/tmp/gifselector-import-" ++ env.tempDirName) env).fst) ++
      [Ev.rmTemp ("/tmp/gifselector-import-" ++ env.tempDirName) env.rmFails] := by
  simp only [processUrl, hp, hal, Bool.not_true, Bool.false_eq_true, if_false]
  split <;> rfl

theorem processUrl_of_acquire_error (vd : List String) (v : JVal) (env : UrlEnv)
    (host m : String)
    (hp : env.parsed = some host) (hal : hostAllowed vd host = true)
    (hacq : (acquire (JVal.toJsString v)
        ("/tmp/gifselector-import-" ++ env.tempDirName) env).snd = Except.error m) :
    (processUrl vd v env).fst = ⟨v, false, none, some m⟩ ∧
    (processUrl vd v env).snd =
      (Ev.mkdirTemp ("/tmp/gifselector-import-" ++ env.tempDirName) ::
        (acquire (JVal.toJsString v)
          ("/tmp/gifselector-import-" ++ env.tempDirName) env).fst) ++
      [Ev.rmTemp ("/tmp/gifselector-import-" ++ env.tempDirName) env.rmFails] := by
  rcases ha : acquire (JVal.toJsString v)
      ("/tmp/gifselector-import-" ++ env.tempDirName) env with ⟨aevs, ar⟩
  rw [ha] at hacq
  dsimp only at hacq
  subst hacq
  have hip : innerPipeline (JVal.toJsString v)
      ("/tmp/gifselector-import-" ++ env.tempDirName) env = (aevs, Except.error m) := by
    rw [innerPipeline, ha]
  constructor
  · simp only [processUrl, hp, hal, Bool.not_true, Bool.false_eq_true, if_false, hip]
  · rw [processUrl_trace vd v env host hp hal, hip]

/-- Claim C6: in the fallback acquisition path, a media response whose
declared numeric content-length exceeds the 15 MiB cap fails the URL
with the too-large error, and so does a downloaded body over the cap;
in both cases no file is ever written into the workspace and no asset
is persisted (the trace holds neither a workspace write nor a database
insert). -/
theorem c6_fallback_size_cap (vd : List String) (v : JVal) (env : UrlEnv) (host m0 : String)
    (hp : env.parsed = some host) (hal : hostAllowed vd host = true)
    (hgo : env.galleryOk = false) (hpage : env.pageOk = true)
    (hmeta : (env.meta "og:video" <|> env.meta "og:video:url" <|>
              env.meta "og:image" <|> env.meta "twitter:image") = some m0)
    (hmok : env.mediaOk = true) :
    (∀ n, env.contentLength = some n → n > MAX_DOWNLOAD_SIZE →
        (processUrl vd v env).fst.success = false ∧
        (processUrl vd v env).fst.error = some "Fallback media file too large" ∧
        (∀ pth, Ev.writeWorkspaceFile pth ∉ (processUrl vd v env).snd) ∧
        (∀ s fn mt sz, Ev.addGif s fn mt sz ∉ (processUrl vd v env).snd)) ∧
    ((∀ n, env.contentLength = some n → n ≤ MAX_DOWNLOAD_SIZE) →
      env.bodyLen > MAX_DOWNLOAD_SIZE →
        (processUrl vd v env).fst.success = false ∧
        (processUrl vd v env).fst.error = some "Fallback media file too large" ∧
        (∀ pth, Ev.writeWorkspaceFile pth ∉ (processUrl vd v env).snd) ∧
        (∀ s fn mt sz, Ev.addGif s fn mt sz ∉ (processUrl vd v env).snd)) := by
  constructor
  · intro n hcl hn
    have hacq : acquire (JVal.toJsString v)
        ("/tmp/gifselector-import-" ++ env.tempDirName) env =
        ([Ev.execGalleryDl (JVal.toJsString v), Ev.fetchPage (JVal.toJsString v),
          Ev.fetchMedia (String.mk (unescapeAmp m0.toList))],
         Except.error "Fallback media file too large") := by
      simp [acquire, hgo, hpage, hmeta, hmok, hcl, hn]
    obtain ⟨hres, htr⟩ :=
      processUrl_of_acquire_error vd v env host _ hp hal (by rw [hacq])
    refine ⟨by rw [hres], by rw [hres], ?_, ?_⟩
    · intro pth
      rw [htr, hacq]
      simp
    · intro s fn mt sz
      rw [htr, hacq]
      simp
  · intro hok hbody
    have hacq : acquire (JVal.toJsString v)
        ("/tmp/gifselector-import-" ++ env.tempDirName) env =
        ([Ev.execGalleryDl (JVal.toJsString v), Ev.fetchPage (JVal.toJsString v),
          Ev.fetchMedia (String.mk (unescapeAmp m0.toList))],
         Except.error "Fallback media file too large") := by
      rcases hcl : env.contentLength with _ | n
      · simp [acquire, hgo, hpage, hmeta, hmok, hcl, hbody]
      · have hle := hok n hcl
        simp [acquire, hgo, hpage, hmeta, hmok, hcl, hbody, Nat.not_lt.mpr hle]
    obtain ⟨hres, htr⟩ :=
      processUrl_of_acquire_error vd v env host _ hp hal (by rw [hacq])
    refine ⟨by rw [hres], by rw [hres], ?_, ?_⟩
    · intro pth
      rw [htr, hacq]
      simp
    · intro s fn mt sz
      rw [htr, hacq]
      simp

/-- A concrete fallback world declaring a 20 MB content-length. -/
def c6Env : UrlEnv :=
  { baseEnv with
    galleryOk := false
    meta := fun p => if p == "og:video" then some "http://c.example/x.mp4" else none
    contentLength := some 20000000 }

/-- Witness for C6: the concrete over-cap declaration is rejected with
no workspace write and no insert. -/
theorem c6_fallback_size_cap_witness :
    (processUrl ["imgur.com"] (JVal.jstr "https://i.imgur.com/h") c6Env).fst.success = false ∧
    (processUrl ["imgur.com"] (JVal.jstr "https://i.imgur.com/h") c6Env).fst.error =
      some "Fallback media file too large" ∧
    (∀ pth, Ev.writeWorkspaceFile pth ∉
        (processUrl ["imgur.com"] (JVal.jstr "https://i.imgur.com/h") c6Env).snd) ∧
    (∀ s fn mt sz, Ev.addGif s fn mt sz ∉
        (processUrl ["imgur.com"] (JVal.jstr "https://i.imgur.com/h") c6Env).snd) :=
  (c6_fallback_size_cap ["imgur.com"] (JVal.jstr "https://i.imgur.com/h") c6Env
      "i.imgur.com" "http://c.example/x.mp4"
      rfl (by decide) rfl rfl rfl rfl).1 20000000 rfl (by decide)

theorem gallery_fail_fetchPage (u t : String) (env : UrlEnv)
    (hgo : env.galleryOk = false) :
    Ev.fetchPage u ∈ (acquire u t env).fst := by
  simp only [acquire, hgo, Bool.false_eq_true, if_false]
  repeat' split
  all_goals simp

theorem acquire_events_in_innerPipeline (u t : String) (env : UrlEnv) (e : Ev)
    (he : e ∈ (acquire u t env).fst) :
    e ∈ (innerPipeline u t env).fst := by
  rcases ha : acquire u t env with ⟨aevs, ar⟩
  rw [ha] at he
  dsimp only at he
  cases ar with
  | error m => rw [innerPipeline, ha]; exact he
  | ok files =>
      rw [innerPipeline, ha]
      dsimp only
      split
      · exact he
      · split <;> exact List.mem_append_left _ he

theorem galleryOk_no_fetchPage (u t : String) (env : UrlEnv)
    (hgo : env.galleryOk = true) :
    ∀ w, Ev.fetchPage w ∉ (innerPipeline u t env).fst := by
  intro w hw
  have ha : acquire u t env = ([Ev.execGalleryDl u], Except.ok env.galleryFiles) := by
    simp only [acquire, hgo, if_true]
  rw [innerPipeline, ha] at hw
  dsimp only at hw
  split at hw
  · simp at hw
  · split at hw <;>
    · rcases List.mem_append.mp hw with h1 | h2
      · simp at h1
      · exact not_mem_of_all_fromFileStage (Ev.fetchPage w) _ (runFiles_events _) rfl h2

/-- Claim C7 counterexample: the primary downloader succeeds but leaves
the workspace empty; the pipeline does not fall through to the
metadata-scrape fallback (no page fetch appears in the trace) and the
URL fails with the no-files error, contradicting the claim that a
successful but empty download triggers the fallback. -/
theorem c7_counterexample :
    (processUrl ["imgur.com"] (JVal.jstr "https://i.imgur.com/a") baseEnv).fst.error =
      some "No files downloaded by gallery-dl" ∧
    ∀ u, Ev.fetchPage u ∉
      (processUrl ["imgur.com"] (JVal.jstr "https://i.imgur.com/a") baseEnv).snd := by
  refine ⟨rfl, ?_⟩
  intro u
  have ht : (processUrl ["imgur.com"] (JVal.jstr "https://i.imgur.com/a") baseEnv).snd =
      [Ev.mkdirTemp "/tmp/gifselector-import-t1",
       Ev.execGalleryDl "https://i.imgur.com/a",
       Ev.rmTemp "/tmp/gifselector-import-t1" false] := by rfl
  rw [ht]
  simp

/-- Claim C7 amended: once validation passes, the fallback page fetch
happens exactly when the gallery-dl invocation throws (exits non-zero);
when gallery-dl succeeds, no page fetch ever occurs, and if it
additionally produced no files the URL fails with the no-files error
instead of falling back. -/
theorem c7_fallback_on_throw_only (vd : List String) (v : JVal) (env : UrlEnv) (host : String)
    (hp : env.parsed = some host) (hal : hostAllowed vd host = true) :
    ((∃ u, Ev.fetchPage u ∈ (processUrl vd v env).snd) ↔ env.galleryOk = false) ∧
    (env.galleryOk = true → env.galleryFiles = [] →
        (processUrl vd v env).fst.error = some "No files downloaded by gallery-dl") := by
  constructor
  · constructor
    · rintro ⟨u, hu⟩
      cases hgov : env.galleryOk
      · rfl
      · exfalso
        rw [processUrl_trace vd v env host hp hal] at hu
        rcases List.mem_append.mp hu with h1 | h2
        · rcases List.mem_cons.mp h1 with h3 | h4
          · exact Ev.noConfusion h3
          · exact galleryOk_no_fetchPage _ _ env hgov u h4
        · simp at h2
    · intro hgo
      refine ⟨JVal.toJsString v, ?_⟩
      rw [processUrl_trace vd v env host hp hal]
      refine List.mem_append.mpr (Or.inl (List.mem_cons_of_mem _ ?_))
      exact acquire_events_in_innerPipeline _ _ env _ (gallery_fail_fetchPage _ _ env hgo)
  · intro hgo hgf
    have ha : acquire (JVal.toJsString v)
        ("/tmp/gifselector-import-" ++ env.tempDirName) env =
        ([Ev.execGalleryDl (JVal.toJsString v)], Except.ok []) := by
      simp only [acquire, hgo, if_true, hgf]
    have hip : innerPipeline (JVal.toJsString v)
        ("/tmp/gifselector-import-" ++ env.tempDirName) env =
        ([Ev.execGalleryDl (JVal.toJsString v)],
         Except.error "No files downloaded by gallery-dl") := by
      rw [innerPipeline, ha]
      rfl
    simp only [processUrl, hp, hal, Bool.not_true, Bool.false_eq_true, if_false, hip]

/-- Witness for the amended C7 at the concrete baseline world. -/
theorem c7_fallback_on_throw_only_witness :
    ((∃ u, Ev.fetchPage u ∈
        (processUrl ["imgur.com"] (JVal.jstr "https://i.imgur.com/b") baseEnv).snd) ↔
      baseEnv.galleryOk = false) ∧
    (baseEnv.galleryOk = true → baseEnv.galleryFiles = [] →
        (processUrl ["imgur.com"] (JVal.jstr "https://i.imgur.com/b") baseEnv).fst.error =
          some "No files downloaded by gallery-dl") :=
  c7_fallback_on_throw_only ["imgur.com"] (JVal.jstr "https://i.imgur.com/b") baseEnv
    "i.imgur.com" rfl (by decide)

/-- Claim C8 counterexample: a workspace webp file of exactly 15728640
bytes - at the cap - is persisted: the import succeeds and the asset
insert with that size appears in the trace, contradicting the claim
that files at or over the cap are skipped. -/
theorem c8_counterexample :
    (processUrl ["imgur.com"] (JVal.jstr "https://i.imgur.com/c")
        { baseEnv with galleryFiles := [webpCapFile] }).fst.success = true ∧
    Ev.addGif "slugccccc3" "171-cccccc.webp" "image/webp" 15728640 ∈
      (processUrl ["imgur.com"] (JVal.jstr "https://i.imgur.com/c")
        { baseEnv with galleryFiles := [webpCapFile] }).snd := by
  exact ⟨rfl, by decide⟩

/-- Claim C8 amended: the size gate is strict: a final artifact whose
size is strictly over 15728640 bytes is skipped - the loop body ends
in a skip and emits neither a copy into permanent storage nor a
database insert; an artifact exactly at the cap is persisted (see the
counterexample). -/
theorem c8_size_cap_strict (f : FileEnv)
    (hne : (resolveConversion f).snd.ext ≠ ".mp4")
    (hbig : (resolveConversion f).snd.size > MAX_DOWNLOAD_SIZE) :
    (processFile f).snd = FileOut.skipped ∧
    (∀ src un, Ev.copyToUploads src un ∉ (processFile f).fst) ∧
    (∀ s fn mt sz, Ev.addGif s fn mt sz ∉ (processFile f).fst) := by
  have hexec := resolveConversion_events_exec f
  have hb : ((resolveConversion f).snd.ext == ".mp4") = false :=
    beq_eq_false_iff_ne.mpr hne
  simp only [processFile]
  split
  · exact ⟨rfl, by intro src un; simp, by intro s fn mt sz; simp⟩
  · simp only [hb, Bool.false_eq_true, if_false, if_pos hbig]
    refine ⟨trivial, ?_, ?_⟩
    · intro src un
      exact not_mem_of_all_exec _ _ hexec rfl
    · intro s fn mt sz
      exact not_mem_of_all_exec _ _ hexec rfl

/-- Witness for the amended C8: a webp file one byte over the cap is
skipped with no copy and no insert. -/
theorem c8_size_cap_strict_witness :
    (processFile webpBigFile).snd = FileOut.skipped ∧
    (∀ src un, Ev.copyToUploads src un ∉ (processFile webpBigFile).fst) ∧
    (∀ s fn mt sz, Ev.addGif s fn mt sz ∉ (processFile webpBigFile).fst) :=
  c8_size_cap_strict webpBigFile (by decide) (by decide)

/-- Claim C10: every per-URL result is well-formed: success holds
exactly when the error field is absent; a successful result carries a
10-character slug - the very slug of the database insert recorded in
the trace; a failed result carries an error message and no slug.  The
10-character length is the nanoid(10) contract of the external library,
stated as a hypothesis on the slugs the environment draws. -/
theorem c10_result_wellformed (vd : List String) (v : JVal) (env : UrlEnv)
    (hs1 : ∀ f ∈ env.galleryFiles, f.conv.slug.length = 10)
    (hs2 : ∀ f ∈ env.galleryPartialFiles, f.conv.slug.length = 10)
    (hs3 : env.fallbackConv.slug.length = 10) :
    ((processUrl vd v env).fst.success = true ↔ (processUrl vd v env).fst.error = none) ∧
    ((processUrl vd v env).fst.success = true →
        ∃ s, (processUrl vd v env).fst.slug = some s ∧ s.length = 10 ∧
          ∃ fn mt sz, Ev.addGif s fn mt sz ∈ (processUrl vd v env).snd) ∧
    ((processUrl vd v env).fst.success = false →
        (processUrl vd v env).fst.slug = none ∧
        ∃ m, (processUrl vd v env).fst.error = some m) := by
  rcases hpa : env.parsed with _ | host
  · have hres : processUrl vd v env = (⟨v, false, none, some "Invalid URL"⟩, []) :=
      (c2_validation_rejects vd v env).1 hpa
    rw [hres]
    exact ⟨by simp, by simp, fun _ => ⟨rfl, "Invalid URL", rfl⟩⟩
  · cases hal : hostAllowed vd host
    · have hres : processUrl vd v env =
          (⟨v, false, none, some "Domain not whitelisted"⟩, []) :=
        (c2_validation_rejects vd v env).2 host hpa hal
      rw [hres]
      exact ⟨by simp, by simp, fun _ => ⟨rfl, "Domain not whitelisted", rfl⟩⟩
    · rcases hip : innerPipeline (JVal.toJsString v)
          ("/tmp/gifselector-import-" ++ env.tempDirName) env with ⟨ievs, ir⟩
      cases ir with
      | error m =>
          have hres : (processUrl vd v env).fst = ⟨v, false, none, some m⟩ := by
            simp only [processUrl, hpa, hal, Bool.not_true, Bool.false_eq_true,
              if_false, hip]
          rw [hres]
          exact ⟨by simp, by simp, fun _ => ⟨rfl, m, rfl⟩⟩
      | ok p =>
          have hres : (processUrl vd v env).fst = ⟨v, true, some p.slug, none⟩ := by
            simp only [processUrl, hpa, hal, Bool.not_true, Bool.false_eq_true,
              if_false, hip]
          obtain ⟨fs, hafs, f, hf, hst, hev⟩ :=
            innerPipeline_ok (JVal.toJsString v)
              ("/tmp/gifselector-import-" ++ env.tempDirName) env p (by rw [hip])
          obtain ⟨hslug, hmem⟩ := processFile_stored f p hst
          have hlen : p.slug.length = 10 := by
            rw [hslug]
            rcases acquire_ok (JVal.toJsString v)
                ("/tmp/gifselector-import-" ++ env.tempDirName) env fs hafs with
              ⟨_, hfs⟩ | ⟨_, sp, hfs⟩
            · subst hfs
              exact hs1 f hf
            · subst hfs
              rcases List.mem_append.mp hf with hf1 | hf2
              · exact hs2 f hf1
              · have hfeq : f = ⟨sp, env.bodyLen, env.fallbackConv⟩ := by
                  simpa using hf2
                rw [hfeq]
                exact hs3
          have hevent : Ev.addGif p.slug p.filename p.mimeType p.sizeBytes ∈
              (processUrl vd v env).snd := by
            rw [processUrl_trace vd v env host hpa hal]
            refine List.mem_append.mpr (Or.inl (List.mem_cons_of_mem _ ?_))
            exact hev _ hmem
          rw [hres]
          exact ⟨by simp, fun _ => ⟨p.slug, rfl, hlen,
            p.filename, p.mimeType, p.sizeBytes, hevent⟩, by simp⟩

/-- Witness for C10 at a concrete successful import. -/
theorem c10_result_wellformed_witness :
    ((processUrl ["imgur.com"] (JVal.jstr "https://i.imgur.com/b")
        { baseEnv with galleryFiles := [gifKeepFile] }).fst.success = true ↔
      (processUrl ["imgur.com"] (JVal.jstr "https://i.imgur.com/b")
        { baseEnv with galleryFiles := [gifKeepFile] }).fst.error = none) ∧
    ((processUrl ["imgur.com"] (JVal.jstr "https://i.imgur.com/b")
        { baseEnv with galleryFiles := [gifKeepFile] }).fst.success = true →
        ∃ s, (processUrl ["imgur.com"] (JVal.jstr "https://i.imgur.com/b")
            { baseEnv with galleryFiles := [gifKeepFile] }).fst.slug = some s ∧
          s.length = 10 ∧
          ∃ fn mt sz, Ev.addGif s fn mt sz ∈
            (processUrl ["imgur.com"] (JVal.jstr "https://i.imgur.com/b")
              { baseEnv with galleryFiles := [gifKeepFile] }).snd) ∧
    ((processUrl ["imgur.com"] (JVal.jstr "https://i.imgur.com/b")
        { baseEnv with galleryFiles := [gifKeepFile] }).fst.success = false →
        (processUrl ["imgur.com"] (JVal.jstr "https://i.imgur.com/b")
          { baseEnv with galleryFiles := [gifKeepFile] }).fst.slug = none ∧
        ∃ m, (processUrl ["imgur.com"] (JVal.jstr "https://i.imgur.com/b")
          { baseEnv with galleryFiles := [gifKeepFile] }).fst.error = some m) :=
  c10_result_wellformed ["imgur.com"] (JVal.jstr "https://i.imgur.com/b")
    { baseEnv with galleryFiles := [gifKeepFile] }
    (by decide) (by decide) (by decide)

end GifSelector
